import Mathlib

/-!
Verification of the feedback-processing pipeline of the amendment-feedback
backend (repository `hackathon`).  The Python sources under `src/backend/`
are shallowly embedded: pure helper functions become Lean functions on
`String`, the external ML classifiers (Detoxify, DistilBERT, BART) are
modelled as oracle parameters that either return a value or raise, float
scores are modelled as rationals, and the database-backed feedback
endpoints become explicit state transitions on a `Store`.
-/

namespace Hackathon

/-! ## Python string primitives

These model the handful of `str` operations used by the backend:
`text.split()`, `' '.join(...)`, `text.strip()`, `text.lower()`,
slicing `text[:n]`, and the substring test `needle in hay`. -/

/-- Model of Python `text.split()`: split on whitespace runs, dropping
empty pieces. -/
def pyWords (s : String) : List String :=
  ((s.data.splitOnP Char.isWhitespace).map List.asString).filter (fun w => w ≠ "")

/-- Number of words of a text, i.e. `len(text.split())`. -/
def wordCount (s : String) : Nat := (pyWords s).length

/-- Model of Python `' '.join(ws)`. -/
def pyJoin : List String → String
  | [] => ""
  | [w] => w
  | w :: ws => w ++ " " ++ pyJoin ws

/-- Model of Python `text.strip()`: drop leading and trailing whitespace. -/
def pyStrip (s : String) : String :=
  ((s.data.dropWhile Char.isWhitespace).reverse.dropWhile Char.isWhitespace).reverse.asString

/-- Model of Python `text.lower()`. -/
def pyLower (s : String) : String := (s.data.map Char.toLower).asString

/-- Model of Python slicing `s[:n]`. -/
def pyTake (s : String) (n : Nat) : String := (s.data.take n).asString

/-- Boolean infix test on character lists, used to model Python
`needle in hay` on strings. -/
def infixHit (n : List Char) : List Char → Bool
  | [] => n.isEmpty
  | c :: cs => n.isPrefixOf (c :: cs) || infixHit n cs

/-- Model of the Python substring test `needle in hay`. -/
def pyIn (needle hay : String) : Bool := infixHit needle.data hay.data

/-- Model of a Python loop `for w in entries: if w in hay: count += weight`,
starting from `init`.  Used by the keyword sentiment heuristics. -/
def countLoop (entries : List String) (hay : String) (weight init : Nat) : Nat :=
  entries.foldl (fun acc w => if pyIn w hay then acc + weight else acc) init

/-! ## Concrete rational scores

Float constants of the sources, represented exactly.  They are built with
the raw `Rat` constructor so that concrete pipeline runs reduce inside the
kernel. -/

/-- The toxicity threshold 0.6 of every variant (`score > 0.6`). -/
def TOXICITY_THRESHOLD : ℚ := ⟨3, 5, by norm_num, by norm_num⟩

/-- Rational 0.5. -/
def q05 : ℚ := ⟨1, 2, by norm_num, by norm_num⟩

/-- Rational 0.7. -/
def q07 : ℚ := ⟨7, 10, by norm_num, by norm_num⟩

/-- Rational 0.75. -/
def q075 : ℚ := ⟨3, 4, by norm_num, by norm_num⟩

/-- Rational 0.6, also the lite neutral-sentiment confidence. -/
def q06 : ℚ := TOXICITY_THRESHOLD

/-- Rational 0.85, the mock confidence of `app_working.py`. -/
def q085 : ℚ := ⟨17, 20, by norm_num, by norm_num⟩

/-- Rational 0.1, the placeholder toxicity score of `app_working.py`. -/
def q01 : ℚ := ⟨1, 10, by norm_num, by norm_num⟩

/-! ## External ML collaborators

A call into an external model either returns a value or raises an
exception (carrying a message); availability flags model the
`*_AVAILABLE` / `model is None` checks of the sources. -/

/-- Outcome of one call into an external ML model. -/
inductive MLCall (α : Type) where
  | ok (val : α)
  | raise (msg : String)
deriving DecidableEq

/-! ## ToxicityGate

Embeddings of `detect_toxicity` (`app_lite_toxicity.py`) and
`detect_toxicity_cuda` (`app_cuda.py`). -/

/-- Embedding of `detect_toxicity` from `app_lite_toxicity.py`.  The
Detoxify classifier is the oracle `predict`, returning the list of
category scores (Python `toxicity_scores.values()`).  `max()` of an empty
collection raises, which the `except` catches, so the empty list also
yields `(False, 0.0)`. -/
def detect_toxicity (available : Bool) (predict : MLCall (List ℚ)) : Bool × ℚ :=
  if !available then (false, 0)
  else
    match predict with
    | .raise _ => (false, 0)
    | .ok [] => (false, 0)
    | .ok (s :: rest) =>
      let max_score := rest.foldl max s
      (decide (TOXICITY_THRESHOLD < max_score), max_score)

/-- Embedding of `detect_toxicity_cuda` from `app_cuda.py`.  The oracle
`predict` returns the `'toxicity'` entry of the prediction dictionary; a
missing key or a model failure raises and is caught. -/
def detect_toxicity_cuda (available : Bool) (predict : MLCall ℚ) : Bool × ℚ :=
  if !available then (false, 0)
  else
    match predict with
    | .raise _ => (false, 0)
    | .ok toxic_score => (decide (TOXICITY_THRESHOLD < toxic_score), toxic_score)

/-! ## Summarizer variants

Embeddings of `summarize_text_real` (`app_production.py`),
`summarize_text` (`app.py`), `summarize_text_cuda` (`app_cuda.py`),
`summarize_text` (`app_full_system.py`) and `simple_summary`
(`app_lite_toxicity.py`).  The BART pipeline is the oracle `bart`;
`pd.isna` is always false on a string input and is dropped. -/

/-- Embedding of `summarize_text_real` from `app_production.py`: sentinel on
blank input, 15-word rule, otherwise BART on the (possibly truncated)
stripped text with a first-50-words-plus-ellipsis fallback when models are
not loaded or the call raises. -/
def summarize_text_real (models_loaded : Bool) (bart : String → MLCall String)
    (text : String) : String :=
  if pyStrip text = "" then "No content to summarize"
  else
    let text_str := pyStrip text
    let words := pyWords text_str
    if words.length ≤ 15 then text_str
    else if !models_loaded then pyJoin (words.take 50) ++ "..."
    else
      let input := if 1000 < text_str.length then pyTake text_str 1000 else text_str
      match bart input with
      | .ok summary => summary
      | .raise _ => pyJoin (words.take 50) ++ "..."

/-- Embedding of `summarize_text` from `app.py`: sentinel on blank input,
then a 20-character (not word) threshold below which the stripped text is
returned; otherwise BART on the (possibly truncated) text, and a
`"Summarization failed: ..."` message when the call raises. -/
def AppMain.summarize_text (bart : String → MLCall String) (text : String) : String :=
  if pyStrip text = "" then "No content to summarize"
  else
    let text_str := pyStrip text
    if text_str.length < 20 then text_str
    else
      let input := if 1000 < text_str.length then pyTake text_str 1000 else text_str
      match bart input with
      | .ok summary => summary
      | .raise msg => "Summarization failed: " ++ msg

/-- Embedding of `summarize_text_cuda` from `app_cuda.py`: when the
summarizer is unavailable or raises, the fallback joins the first 50 words
and appends an ellipsis only when the text has more than 50 words; texts
under 10 words are returned unchanged when the model is available. -/
def summarize_text_cuda (available : Bool) (bart : String → MLCall String)
    (text : String) : String :=
  if !available then
    pyJoin ((pyWords text).take 50) ++ (if 50 < (pyWords text).length then "..." else "")
  else if (pyWords text).length < 10 then text
  else
    match bart text with
    | .ok summary => summary
    | .raise _ =>
      pyJoin ((pyWords text).take 50) ++ (if 50 < (pyWords text).length then "..." else "")

/-- Embedding of `summarize_text` from `app_full_system.py`
(`max_words = 15`, its only call pattern): 15-word rule, then BART with
the summary cut to 15 words, and a first-15-words truncation (no ellipsis)
when the summarizer is missing or raises. -/
def AppFullSystem.summarize_text (loaded : Bool) (bart : String → MLCall String)
    (text : String) : String :=
  let words := pyWords text
  if words.length ≤ 15 then text
  else if loaded then
    match bart text with
    | .ok summary => pyJoin ((pyWords summary).take 15)
    | .raise _ => pyJoin (words.take 15)
  else pyJoin (words.take 15)

/-- Embedding of `simple_summary` from `app_lite_toxicity.py`
(`max_words = 15`, its only call pattern). -/
def simple_summary (text : String) : String :=
  let words := pyWords text
  if words.length ≤ 15 then text
  else pyJoin (words.take 15) ++ "..."

/-! ## Sentiment variants

Embeddings of `simple_sentiment` (`app_lite_toxicity.py`),
`analyze_sentiment` (`app_full_system.py`, with its inline keyword
fallback), `analyze_sentiment_cuda` (`app_cuda.py`) and
`predict_sentiment` (`app_enhanced.py`). -/

/-- Embedding of `simple_sentiment` from `app_lite_toxicity.py`. -/
def simple_sentiment (text : String) : String × ℚ :=
  let positive_words := ["good", "great", "excellent", "positive", "support", "agree", "beneficial"]
  let negative_words := ["bad", "terrible", "awful", "negative", "oppose", "disagree", "harmful"]
  let text_lower := pyLower text
  let pos_count := countLoop positive_words text_lower 1 0
  let neg_count := countLoop negative_words text_lower 1 0
  if neg_count < pos_count then ("positive", q075)
  else if pos_count < neg_count then ("negative", q075)
  else ("neutral", q06)

/-- Embedding of the keyword fallback block inside `analyze_sentiment` of
`app_full_system.py` (the code after the model branch). -/
def keyword_sentiment_fallback (text : String) : String × ℚ :=
  let positive_keywords := ["good", "great", "excellent", "approve", "support", "beneficial", "helpful", "clear"]
  let negative_keywords := ["bad", "poor", "confusing", "difficult", "burden", "impractical", "harmful"]
  let text_lower := pyLower text
  let positive_count := countLoop positive_keywords text_lower 1 0
  let negative_count := countLoop negative_keywords text_lower 1 0
  if negative_count < positive_count then ("positive", q07)
  else if positive_count < negative_count then ("negative", q07)
  else ("neutral", q05)

/-- Embedding of `analyze_sentiment` from `app_full_system.py`.  The
DistilBERT model is the oracle `model`, returning the argmax class index
and its confidence; when the model is missing or raises, control falls
through to the keyword fallback. -/
def analyze_sentiment (modelLoaded : Bool) (model : String → MLCall (Nat × ℚ))
    (text : String) : String × ℚ :=
  if modelLoaded then
    match model text with
    | .ok (predicted_class, confidence) =>
      ((if predicted_class = 1 then "positive" else "negative"), confidence)
    | .raise _ => keyword_sentiment_fallback text
  else keyword_sentiment_fallback text

/-- Embedding of `analyze_sentiment_cuda` from `app_cuda.py`: when the
pipeline is unavailable or raises, the fixed constant `("neutral", 0.5)`
is returned (no keyword fallback in this variant). -/
def analyze_sentiment_cuda (available : Bool) (model : String → MLCall (String × ℚ))
    (text : String) : String × ℚ :=
  if !available then ("neutral", q05)
  else
    match model text with
    | .ok (label, score) => (pyLower label, score)
    | .raise _ => ("neutral", q05)

/-- Positive word list of `predict_sentiment` in `app_enhanced.py`. -/
def AppEnhanced.positive_words : List String :=
  ["good", "great", "excellent", "amazing", "love", "fantastic", "wonderful",
   "awesome", "perfect", "best", "brilliant", "outstanding", "superb",
   "happy", "pleased", "satisfied", "impressed", "recommend", "quality",
   "fast", "quick", "efficient", "responsive", "helpful", "clear", "easy",
   "successful", "seamless", "professional", "dedication", "exceeded", "rare",
   "help", "helps", "grow", "encourage", "innovation", "improve", "improves",
   "benefits", "benefit", "progressive", "needed", "initiative", "simplify",
   "transparency", "appreciate", "effort", "important", "follow"]

/-- Negative word list of `predict_sentiment` in `app_enhanced.py`. -/
def AppEnhanced.negative_words : List String :=
  ["bad", "terrible", "awful", "hate", "worst", "poor", "disappointing",
   "horrible", "useless", "waste", "broken", "defective", "cheap",
   "unhappy", "frustrated", "angry", "annoyed", "problem", "issue",
   "damaged", "disappointed", "extremely disappointed", "refused", "unhelpful",
   "complicated", "time-consuming", "not helpful", "low quality", "concerns",
   "broke", "failed", "difficult", "slow", "expensive", "overpriced",
   "confusing", "burden", "impractical", "corruption", "inaccessible",
   "delay", "increase", "paperwork", "drawbacks", "harmful"]

/-- Negative phrase list of `predict_sentiment` in `app_enhanced.py`
(each hit adds 2). -/
def AppEnhanced.negative_phrases : List String :=
  ["extremely disappointed", "not helpful", "low quality", "poor quality",
   "terrible experience", "bad quality", "refused to help", "broke within"]

/-- Positive phrase list of `predict_sentiment` in `app_enhanced.py`
(each hit adds 2). -/
def AppEnhanced.positive_phrases : List String :=
  ["excellent quality", "great product", "outstanding customer service",
   "highly recommend", "exceeded expectations", "fast delivery",
   "excellent work", "great initiative", "much needed", "easy to follow",
   "help startups", "encourage innovation", "benefits small businesses",
   "improves transparency", "good points"]

/-- Embedding of `predict_sentiment` from `app_enhanced.py`: word hits add
1, phrase hits add 2, then the tie-breaking decision chain over the final
counts and the word count of the original text. -/
def AppEnhanced.predict_sentiment (text : String) : String :=
  if pyStrip text = "" then "NEUTRAL"
  else
    let text_lower := pyLower text
    let positive_count0 := countLoop AppEnhanced.positive_words text_lower 1 0
    let negative_count0 := countLoop AppEnhanced.negative_words text_lower 1 0
    let negative_count := countLoop AppEnhanced.negative_phrases text_lower 2 negative_count0
    let positive_count := countLoop AppEnhanced.positive_phrases text_lower 2 positive_count0
    if negative_count < positive_count then "POSITIVE"
    else if positive_count < negative_count then "NEGATIVE"
    else if wordCount text ≤ 3 then "NEUTRAL"
    else if 0 < negative_count then "NEGATIVE"
    else if 0 < positive_count then "POSITIVE"
    else "NEUTRAL"

/-! ## Spec-side definitions for the refinement claim C6

These two definitions follow the words of spec section 4.2(b), to be
compared against the embedded `AppEnhanced.predict_sentiment`. -/

/-- Written from the spec words: the weighted hit count of one side — a
matched single word counts 1, a matched phrase counts 2, matching being
case-insensitive substring containment in the lowercased text. -/
def specWeightedHits (words phrases : List String) (text : String) : Nat :=
  (words.filter (fun w => pyIn w (pyLower text))).length
    + 2 * (phrases.filter (fun w => pyIn w (pyLower text))).length

/-- Written from the spec words: label selection — positive when
positive-count exceeds negative-count, negative in the opposite case, and
on an exact tie: neutral for texts of at most 3 words, else negative when
any negative hits exist, else positive when any positive hits exist, else
neutral. -/
def specLabelSelection (pos neg wc : Nat) : String :=
  if neg < pos then "POSITIVE"
  else if pos < neg then "NEGATIVE"
  else if wc ≤ 3 then "NEUTRAL"
  else if 0 < neg then "NEGATIVE"
  else if 0 < pos then "POSITIVE"
  else "NEUTRAL"

/-! ## Data model and feedback-submission endpoints

The two-table schema of `models.py` and the `/feedback` POST handlers of
`app_lite_toxicity.py`, `app_cuda.py` and `app_working.py`, embedded as
state transitions on a `Store`.  Server-assigned `id` and `created_at`
columns are immaterial to the claims and omitted. -/

/-- Row of the `feedback` table of `models.py`: `summary`, `sentiment` and
`sentiment_confidence` are nullable.  The schema has no toxicity column of
any kind. -/
structure FeedbackRow where
  amendment_id : Nat
  original_text : String
  summary : Option String
  sentiment : Option String
  sentiment_confidence : Option ℚ
deriving DecidableEq

/-- Persistence store: the ids of existing amendments and the persisted
feedback rows. -/
structure Store where
  amendments : List Nat
  feedbacks : List FeedbackRow
deriving DecidableEq

/-- Outcome of one `/feedback` POST: an HTTP error, a toxicity rejection
(`success=False` with the toxicity data), or an accepted submission with
the analysis results. -/
inductive SubmitOutcome where
  | httpError (status : Nat) (detail : String)
  | rejection (toxic_score : ℚ)
  | accepted (sentiment : String) (confidence : ℚ) (summary : String) (toxic_score : ℚ)
deriving DecidableEq

/-- Embedding of `submit_feedback` from `app_lite_toxicity.py`: verify the
amendment exists (404 otherwise), run the toxicity gate, return a
rejection without touching the store when toxic, otherwise run
`simple_sentiment` and `simple_summary` and append a fully populated
feedback row. -/
def submit_feedback (available : Bool) (predict : String → MLCall (List ℚ))
    (store : Store) (amendment_id : Nat) (original_text : String) :
    SubmitOutcome × Store :=
  if !(store.amendments.contains amendment_id) then
    (.httpError 404 "Amendment not found", store)
  else
    let tox := detect_toxicity available (predict original_text)
    if tox.1 then (.rejection tox.2, store)
    else
      let sc := simple_sentiment original_text
      let summary := simple_summary original_text
      let row : FeedbackRow :=
        ⟨amendment_id, original_text, some summary, some sc.1, some sc.2⟩
      (.accepted sc.1 sc.2 summary tox.2,
        ⟨store.amendments, store.feedbacks ++ [row]⟩)

/-- Embedding of `submit_feedback_cuda` from `app_cuda.py`, with the same
shape over the CUDA-variant stages. -/
def submit_feedback_cuda (detoxify_available : Bool) (detoxify : String → MLCall ℚ)
    (sent_available : Bool) (sentModel : String → MLCall (String × ℚ))
    (sum_available : Bool) (bart : String → MLCall String)
    (store : Store) (amendment_id : Nat) (original_text : String) :
    SubmitOutcome × Store :=
  if !(store.amendments.contains amendment_id) then
    (.httpError 404 "Amendment not found", store)
  else
    let tox := detect_toxicity_cuda detoxify_available (detoxify original_text)
    if tox.1 then (.rejection tox.2, store)
    else
      let sc := analyze_sentiment_cuda sent_available sentModel original_text
      let summary := summarize_text_cuda sum_available bart original_text
      let row : FeedbackRow :=
        ⟨amendment_id, original_text, some summary, some sc.1, some sc.2⟩
      (.accepted sc.1 sc.2 summary tox.2,
        ⟨store.amendments, store.feedbacks ++ [row]⟩)

/-- Embedding of `submit_feedback` from `app_working.py` (mock analysis, no
toxicity gate): 404 when the amendment is missing, otherwise a fully
populated row with mock summary, keyword sentiment, confidence 0.85 and a
reported toxicity score of 0.1. -/
def AppWorking.submit_feedback (store : Store) (amendment_id : Nat)
    (original_text : String) : SubmitOutcome × Store :=
  if !(store.amendments.contains amendment_id) then
    (.httpError 404 "Amendment not found", store)
  else
    let summary :=
      if 100 < original_text.length
        then "Summary: " ++ pyTake original_text 100 ++ "..."
        else original_text
    let sentiment :=
      if pyIn "good" (pyLower original_text) || pyIn "great" (pyLower original_text)
        then "positive" else "neutral"
    let row : FeedbackRow :=
      ⟨amendment_id, original_text, some summary, some sentiment, some q085⟩
    (.accepted sentiment q085 summary q01,
      ⟨store.amendments, store.feedbacks ++ [row]⟩)

/-- Row of the `feedbacks` table defined inside `app_cuda_simple.py`: this
variant declares its own schema, with an `is_toxic` Boolean column, the
comment text, and nullable `sentiment`, `sentiment_score` (stored as a
string) and `summary`. -/
structure CudaSimpleFeedbackRow where
  amendment_id : Nat
  comment : String
  is_toxic : Bool
  sentiment : Option String
  sentiment_score : Option String
  summary : Option String
deriving DecidableEq

/-- Outcome of the `/submit_feedback` handler of `app_cuda_simple.py`: its
`FeedbackResponse` (which carries no toxicity score), or the HTTP 500
raised when a model call escapes to the outer `except`. -/
inductive CudaSimpleOutcome where
  | httpError (status : Nat) (detail : String)
  | response (toxic : Bool) (message : String) (sentiment : Option String)
      (sentiment_score : Option String) (summary : Option String)
deriving DecidableEq

/-- Embedding of the `/submit_feedback` handler of `app_cuda_simple.py`.
There is no amendment-existence check in this handler.  When the comment
is toxic (`score > 0.6`), a row with `is_toxic=True` and null sentiment,
sentiment_score and summary is committed and a rejection without the
score is returned.  Otherwise sentiment and (for comments over 50
characters) summarization run and a fully populated `is_toxic=False` row
is committed.  `fmt` stands for the Python float formatting
`f"{score:.4f}"`; a raising model call reaches the outer `except`, which
rolls back and raises HTTP 500. -/
def CudaSimple.submit_feedback (detoxify : String → MLCall ℚ)
    (sentModel : String → MLCall (String × ℚ)) (bart : String → MLCall String)
    (fmt : ℚ → String) (rows : List CudaSimpleFeedbackRow)
    (amendment_id : Nat) (comment : String) :
    CudaSimpleOutcome × List CudaSimpleFeedbackRow :=
  match detoxify comment with
  | .raise msg => (.httpError 500 ("Failed to process feedback: " ++ msg), rows)
  | .ok toxic_score =>
    if TOXICITY_THRESHOLD < toxic_score then
      let row : CudaSimpleFeedbackRow := ⟨amendment_id, comment, true, none, none, none⟩
      (.response true "The comment contains toxicity" none none none, rows ++ [row])
    else
      match sentModel comment with
      | .raise msg => (.httpError 500 ("Failed to process feedback: " ++ msg), rows)
      | .ok (sentiment_label, sentiment_score) =>
        match (if 50 < comment.length then bart comment else .ok comment) with
        | .raise msg => (.httpError 500 ("Failed to process feedback: " ++ msg), rows)
        | .ok summary =>
          let row : CudaSimpleFeedbackRow :=
            ⟨amendment_id, comment, false, some sentiment_label,
              some (fmt sentiment_score), some summary⟩
          (.response false "Feedback submitted successfully" (some sentiment_label)
            (some (fmt sentiment_score)) (some summary), rows ++ [row])

/-- Concrete store with one amendment (id 1) and no feedback, used by the
concrete instances below. -/
def demoStore : Store := ⟨[1], []⟩

/-- Concrete sixteen-word text used by the concrete instances below. -/
def sixteenWords : String := "w a b c d e f g h i j k l m n o"

/-! ## Theorems settling the claims -/

/-- Accumulating keyword loops compute `init` plus `weight` per matched
entry. -/
theorem countLoop_eq (entries : List String) (hay : String) (w init : Nat) :
    countLoop entries hay w init
      = init + w * (entries.filter (fun e => pyIn e hay)).length := by
  induction entries generalizing init with
  | nil => simp [countLoop]
  | cons x xs ih =>
    simp only [countLoop, List.foldl_cons, List.filter_cons] at *
    by_cases h : pyIn x hay
    · simp only [h, if_pos, List.length_cons]
      rw [ih]
      ring
    · simp only [h, Bool.false_eq_true, if_false]
      rw [ih]

/-- Sanity: the threshold constant is the 0.6 of the sources. -/
theorem TOXICITY_THRESHOLD_eq : TOXICITY_THRESHOLD = 6 / 10 := by
  rw [TOXICITY_THRESHOLD, Rat.mk'_eq_divInt, Rat.divInt_eq_div]; norm_num

/-- Claim C2: for every input, the toxicity verdict equals `score > 0.6`
(with `score` the returned score), in the lite variant and in the CUDA
variant; in particular a score of exactly 0.6 is not toxic. -/
theorem toxicity_verdict_iff_threshold (available : Bool)
    (p : MLCall (List ℚ)) (q : MLCall ℚ) :
    (detect_toxicity available p).1
        = decide (TOXICITY_THRESHOLD < (detect_toxicity available p).2)
      ∧ (detect_toxicity_cuda available q).1
        = decide (TOXICITY_THRESHOLD < (detect_toxicity_cuda available q).2) := by
  constructor
  · cases available with
    | false =>
      show false = decide (TOXICITY_THRESHOLD < (0:ℚ))
      decide
    | true =>
      cases p with
      | raise msg =>
        show false = decide (TOXICITY_THRESHOLD < (0:ℚ))
        decide
      | ok scores => cases scores with
        | nil =>
          show false = decide (TOXICITY_THRESHOLD < (0:ℚ))
          decide
        | cons s rest => simp [detect_toxicity]
  · cases available with
    | false =>
      show false = decide (TOXICITY_THRESHOLD < (0:ℚ))
      decide
    | true =>
      cases q with
      | raise msg =>
        show false = decide (TOXICITY_THRESHOLD < (0:ℚ))
        decide
      | ok score => simp [detect_toxicity_cuda]

/-- Claim C1, counterexample: a toxic submission (score 0.75 on amendment 1)
completes with a rejection carrying the score, yet the store afterwards
holds no feedback row at all — no toxic-marked row is persisted, contrary
to the claim. -/
theorem toxic_submission_no_row_counterexample :
    (detect_toxicity true (MLCall.ok [q075])).1 = true
      ∧ (submit_feedback true (fun _ => MLCall.ok [q075]) demoStore 1 "hostile words").1
          = SubmitOutcome.rejection q075
      ∧ (submit_feedback true (fun _ => MLCall.ok [q075]) demoStore 1 "hostile words").2.feedbacks
          = [] := by
  decide

/-- Claim C1 as amended: when the toxicity gate judges the submission toxic,
the pipeline of `app_lite_toxicity.py` returns a rejection carrying the
toxicity score, skips classification and summarization, and persists no
Feedback row (its `models.py` schema has no toxicity column); the
`/submit_feedback` handler of `app_cuda_simple.py` instead persists a row
with `is_toxic=True` and null sentiment, sentiment_score and summary,
skips classification and summarization, and returns a rejection that
carries no toxicity score. -/
theorem toxic_submission_by_variant (available : Bool)
    (predict : String → MLCall (List ℚ)) (dt : String → MLCall ℚ)
    (sm : String → MLCall (String × ℚ)) (bart : String → MLCall String)
    (fmt : ℚ → String) (store : Store) (rows : List CudaSimpleFeedbackRow)
    (aid : Nat) (text : String) (tscore : ℚ)
    (hmem : aid ∈ store.amendments)
    (htox : (detect_toxicity available (predict text)).1 = true)
    (hdt : dt text = MLCall.ok tscore)
    (hts : TOXICITY_THRESHOLD < tscore) :
    submit_feedback available predict store aid text
        = (.rejection (detect_toxicity available (predict text)).2, store)
      ∧ CudaSimple.submit_feedback dt sm bart fmt rows aid text
        = (.response true "The comment contains toxicity" none none none,
            rows ++ [⟨aid, text, true, none, none, none⟩]) := by
  constructor
  · simp [submit_feedback, hmem, htox]
  · simp [CudaSimple.submit_feedback, hdt, hts]

/-- Concrete instance of the amended claim C1, at toxicity score 0.75. -/
theorem toxic_submission_by_variant_witness :
    submit_feedback true (fun _ => MLCall.ok [q075]) demoStore 1 "hostile words"
        = (.rejection (detect_toxicity true ((fun _ => MLCall.ok [q075]) "hostile words")).2,
            demoStore)
      ∧ CudaSimple.submit_feedback (fun _ => MLCall.ok q075)
          (fun _ => MLCall.ok ("POSITIVE", q05)) (fun _ => MLCall.ok "S")
          (fun _ => "0.7500") [] 1 "hostile words"
        = (.response true "The comment contains toxicity" none none none,
            [] ++ [⟨1, "hostile words", true, none, none, none⟩]) :=
  toxic_submission_by_variant true (fun _ => MLCall.ok [q075]) (fun _ => MLCall.ok q075)
    (fun _ => MLCall.ok ("POSITIVE", q05)) (fun _ => MLCall.ok "S") (fun _ => "0.7500")
    demoStore [] 1 "hostile words" q075 (by decide) (by decide) rfl (by decide)

/-- Claim C7: submitting feedback against a nonexistent amendment id
returns 404 "Amendment not found" and leaves the store unchanged, in the
lite, CUDA and working variants. -/
theorem unknown_amendment_not_found_no_write (available : Bool)
    (predict : String → MLCall (List ℚ))
    (da : Bool) (dt : String → MLCall ℚ) (sa : Bool) (sm : String → MLCall (String × ℚ))
    (ba : Bool) (bart : String → MLCall String)
    (store : Store) (aid : Nat) (text : String)
    (hmiss : aid ∉ store.amendments) :
    submit_feedback available predict store aid text
        = (.httpError 404 "Amendment not found", store)
      ∧ submit_feedback_cuda da dt sa sm ba bart store aid text
        = (.httpError 404 "Amendment not found", store)
      ∧ AppWorking.submit_feedback store aid text
        = (.httpError 404 "Amendment not found", store) := by
  refine ⟨?_, ?_, ?_⟩ <;>
    simp [submit_feedback, submit_feedback_cuda, AppWorking.submit_feedback, hmiss]

/-- Concrete instance of claim C7: amendment id 2 does not exist in the
demo store. -/
theorem unknown_amendment_not_found_no_write_witness :
    submit_feedback true (fun _ => MLCall.ok [q01]) demoStore 2 "some text"
        = (.httpError 404 "Amendment not found", demoStore)
      ∧ submit_feedback_cuda true (fun _ => MLCall.ok q01) true
          (fun _ => MLCall.ok ("POSITIVE", q05)) true (fun _ => MLCall.ok "S")
          demoStore 2 "some text"
        = (.httpError 404 "Amendment not found", demoStore)
      ∧ AppWorking.submit_feedback demoStore 2 "some text"
        = (.httpError 404 "Amendment not found", demoStore) :=
  unknown_amendment_not_found_no_write true (fun _ => MLCall.ok [q01]) true
    (fun _ => MLCall.ok q01) true (fun _ => MLCall.ok ("POSITIVE", q05)) true
    (fun _ => MLCall.ok "S") demoStore 2 "some text" (by decide)

/-- Claim C10: every feedback row that a `/feedback` POST adds to the store
has non-null summary, sentiment and sentiment_confidence — any row of the
post-store is either an old row or fully analyzed, in the lite, CUDA and
working variants. -/
theorem persisted_rows_fully_analyzed (available : Bool)
    (predict : String → MLCall (List ℚ))
    (da : Bool) (dt : String → MLCall ℚ) (sa : Bool) (sm : String → MLCall (String × ℚ))
    (ba : Bool) (bart : String → MLCall String)
    (store : Store) (aid : Nat) (text : String) :
    (∀ r ∈ (submit_feedback available predict store aid text).2.feedbacks,
        r ∈ store.feedbacks
          ∨ (r.summary.isSome = true ∧ r.sentiment.isSome = true
              ∧ r.sentiment_confidence.isSome = true))
      ∧ (∀ r ∈ (submit_feedback_cuda da dt sa sm ba bart store aid text).2.feedbacks,
          r ∈ store.feedbacks
            ∨ (r.summary.isSome = true ∧ r.sentiment.isSome = true
                ∧ r.sentiment_confidence.isSome = true))
      ∧ (∀ r ∈ (AppWorking.submit_feedback store aid text).2.feedbacks,
          r ∈ store.feedbacks
            ∨ (r.summary.isSome = true ∧ r.sentiment.isSome = true
                ∧ r.sentiment_confidence.isSome = true)) := by
  by_cases hmem : aid ∈ store.amendments
  · refine ⟨?_, ?_, ?_⟩
    · intro r hr
      by_cases htox : (detect_toxicity available (predict text)).1
      · simp [submit_feedback, hmem, htox] at hr
        exact Or.inl hr
      · simp [submit_feedback, hmem, htox] at hr
        rcases hr with h | h
        · exact Or.inl h
        · subst h
          exact Or.inr ⟨rfl, rfl, rfl⟩
    · intro r hr
      by_cases htox : (detect_toxicity_cuda da (dt text)).1
      · simp [submit_feedback_cuda, hmem, htox] at hr
        exact Or.inl hr
      · simp [submit_feedback_cuda, hmem, htox] at hr
        rcases hr with h | h
        · exact Or.inl h
        · subst h
          exact Or.inr ⟨rfl, rfl, rfl⟩
    · intro r hr
      simp [AppWorking.submit_feedback, hmem] at hr
      rcases hr with h | h
      · exact Or.inl h
      · subst h
        exact Or.inr ⟨rfl, rfl, rfl⟩
  · refine ⟨?_, ?_, ?_⟩ <;> intro r hr <;>
      simp [submit_feedback, submit_feedback_cuda, AppWorking.submit_feedback,
        hmem] at hr <;>
      exact Or.inl hr

/-- Concrete instance of claim C10: the row the lite endpoint appends for a
clean two-word submission is fully analyzed. -/
theorem persisted_rows_fully_analyzed_witness :
    (⟨1, "good stuff", some "good stuff", some "positive", some q075⟩ : FeedbackRow)
        ∈ demoStore.feedbacks
      ∨ ((some "good stuff" : Option String).isSome = true
          ∧ (some "positive" : Option String).isSome = true
          ∧ (some q075 : Option ℚ).isSome = true) :=
  (persisted_rows_fully_analyzed true (fun _ => MLCall.ok [q01]) true
      (fun _ => MLCall.ok q01) true (fun _ => MLCall.ok ("POSITIVE", q05)) true
      (fun _ => MLCall.ok "S") demoStore 1 "good stuff").1
    ⟨1, "good stuff", some "good stuff", some "positive", some q075⟩ (by decide)

/-- Claim C3, counterexample: `summarize_text` of `app.py` has no 15-word
rule — a five-word text of at least 20 characters is handed to the model
and its output is returned instead of the text. -/
theorem short_text_identity_counterexample :
    wordCount "Great job on this amendment!" ≤ 15
      ∧ AppMain.summarize_text (fun _ => MLCall.ok "A short machine summary.")
          "Great job on this amendment!" ≠ "Great job on this amendment!" := by
  decide

/-- Claim C3 as amended: for non-blank text equal to its own strip with at
most 15 words, the summarizers of `app_production.py`,
`app_full_system.py` and `app_lite_toxicity.py` return it unchanged;
`app.py` returns it unchanged only when it is shorter than 20 characters
(its threshold is by characters, not words). -/
theorem short_text_identity (text : String) (loaded : Bool)
    (bart bart2 bart3 : String → MLCall String)
    (hstrip : pyStrip text = text) (hne : text ≠ "") (hwc : wordCount text ≤ 15) :
    summarize_text_real loaded bart text = text
      ∧ AppFullSystem.summarize_text loaded bart2 text = text
      ∧ simple_summary text = text
      ∧ (text.length < 20 → AppMain.summarize_text bart3 text = text) := by
  have hw : (pyWords text).length ≤ 15 := hwc
  refine ⟨?_, ?_, ?_, ?_⟩
  · simp [summarize_text_real, hstrip, hne, hw]
  · simp [AppFullSystem.summarize_text, hw]
  · simp [simple_summary, hw]
  · intro hlen
    simp [AppMain.summarize_text, hstrip, hne, hlen]

/-- Concrete instance of the amended claim C3. -/
theorem short_text_identity_witness :
    summarize_text_real true (fun _ => MLCall.ok "S") "Great job!" = "Great job!"
      ∧ AppFullSystem.summarize_text true (fun _ => MLCall.ok "S") "Great job!" = "Great job!"
      ∧ simple_summary "Great job!" = "Great job!"
      ∧ ("Great job!".length < 20 →
          AppMain.summarize_text (fun _ => MLCall.ok "S") "Great job!" = "Great job!") :=
  short_text_identity "Great job!" true (fun _ => MLCall.ok "S") (fun _ => MLCall.ok "S")
    (fun _ => MLCall.ok "S") (by decide) (by decide) (by decide)

/-- Claim C5, counterexample: on a sixteen-word text with the model
unavailable, neither `app_full_system.py` (first 15 words, no ellipsis)
nor `app_cuda.py` (no ellipsis at up to 50 words) returns the first 50
words with an ellipsis appended. -/
theorem long_text_fallback_counterexample :
    15 < wordCount sixteenWords
      ∧ AppFullSystem.summarize_text false (fun _ => MLCall.raise "down") sixteenWords
          ≠ pyJoin ((pyWords sixteenWords).take 50) ++ "..."
      ∧ summarize_text_cuda false (fun _ => MLCall.raise "down") sixteenWords
          ≠ pyJoin ((pyWords sixteenWords).take 50) ++ "..." := by
  decide

/-- Claim C5 as amended: for stripped text of more than 15 words, when the
summarization model is unavailable or raises, `app_production.py` returns
the first 50 words with "..." appended, `app_cuda.py` returns the first 50
words with "..." only when the text exceeds 50 words, and
`app_full_system.py` returns just the first 15 words with no ellipsis. -/
theorem long_text_fallback_by_variant (text msg : String) (bart : String → MLCall String)
    (hstrip : pyStrip text = text) (hwc : 15 < wordCount text) :
    summarize_text_real false bart text = pyJoin ((pyWords text).take 50) ++ "..."
      ∧ summarize_text_real true (fun _ => MLCall.raise msg) text
          = pyJoin ((pyWords text).take 50) ++ "..."
      ∧ summarize_text_cuda false bart text
          = pyJoin ((pyWords text).take 50) ++ (if 50 < wordCount text then "..." else "")
      ∧ summarize_text_cuda true (fun _ => MLCall.raise msg) text
          = pyJoin ((pyWords text).take 50) ++ (if 50 < wordCount text then "..." else "")
      ∧ AppFullSystem.summarize_text false bart text = pyJoin ((pyWords text).take 15)
      ∧ AppFullSystem.summarize_text true (fun _ => MLCall.raise msg) text
          = pyJoin ((pyWords text).take 15) := by
  have hne : text ≠ "" := by
    intro h
    rw [h] at hwc
    exact absurd hwc (by decide)
  have hgt : ¬ (pyWords text).length ≤ 15 := by
    unfold wordCount at hwc
    omega
  have hlt : ¬ (pyWords text).length < 10 := by
    unfold wordCount at hwc
    omega
  refine ⟨?_, ?_, ?_, ?_, ?_, ?_⟩
  · simp [summarize_text_real, hstrip, hne, hgt]
  · simp [summarize_text_real, hstrip, hne, hgt]
  · simp [summarize_text_cuda, wordCount]
  · simp [summarize_text_cuda, wordCount, hlt]
  · simp [AppFullSystem.summarize_text, hgt]
  · simp [AppFullSystem.summarize_text, hgt]

/-- Concrete instance of the amended claim C5, on the sixteen-word text. -/
theorem long_text_fallback_by_variant_witness :
    summarize_text_real false (fun _ => MLCall.ok "S") sixteenWords
        = pyJoin ((pyWords sixteenWords).take 50) ++ "..."
      ∧ summarize_text_real true (fun _ => MLCall.raise "down") sixteenWords
          = pyJoin ((pyWords sixteenWords).take 50) ++ "..."
      ∧ summarize_text_cuda false (fun _ => MLCall.ok "S") sixteenWords
          = pyJoin ((pyWords sixteenWords).take 50)
              ++ (if 50 < wordCount sixteenWords then "..." else "")
      ∧ summarize_text_cuda true (fun _ => MLCall.raise "down") sixteenWords
          = pyJoin ((pyWords sixteenWords).take 50)
              ++ (if 50 < wordCount sixteenWords then "..." else "")
      ∧ AppFullSystem.summarize_text false (fun _ => MLCall.ok "S") sixteenWords
          = pyJoin ((pyWords sixteenWords).take 15)
      ∧ AppFullSystem.summarize_text true (fun _ => MLCall.raise "down") sixteenWords
          = pyJoin ((pyWords sixteenWords).take 15) :=
  long_text_fallback_by_variant sixteenWords "down" (fun _ => MLCall.ok "S")
    (by decide) (by decide)

/-- Claim C9: blank (empty or whitespace-only) input yields the sentinel
"No content to summarize" in `app_production.py` and `app.py`, never an
exception (the embedding is total). -/
theorem blank_text_sentinel (text : String) (loaded : Bool)
    (bart bart2 : String → MLCall String) (hws : pyStrip text = "") :
    summarize_text_real loaded bart text = "No content to summarize"
      ∧ AppMain.summarize_text bart2 text = "No content to summarize" := by
  constructor <;> simp [summarize_text_real, AppMain.summarize_text, hws]

/-- Concrete instance of claim C9 on a whitespace-only text. -/
theorem blank_text_sentinel_witness :
    summarize_text_real false (fun _ => MLCall.ok "S") "   " = "No content to summarize"
      ∧ AppMain.summarize_text (fun _ => MLCall.ok "S") "   " = "No content to summarize" :=
  blank_text_sentinel "   " false (fun _ => MLCall.ok "S") (fun _ => MLCall.ok "S")
    (by decide)

/-- Claim C6: on every non-blank text, the keyword sentiment of
`app_enhanced.py` computes exactly the spec selection rule applied to the
weighted hit counts (matched words add 1, matched phrases add 2,
case-insensitive substring containment) and the word count of the text. -/
theorem enhanced_sentiment_matches_spec (text : String)
    (hne : pyStrip text ≠ "") :
    AppEnhanced.predict_sentiment text
      = specLabelSelection
          (specWeightedHits AppEnhanced.positive_words AppEnhanced.positive_phrases text)
          (specWeightedHits AppEnhanced.negative_words AppEnhanced.negative_phrases text)
          (wordCount text) := by
  have hp : countLoop AppEnhanced.positive_phrases (pyLower text) 2
      (countLoop AppEnhanced.positive_words (pyLower text) 1 0)
      = specWeightedHits AppEnhanced.positive_words AppEnhanced.positive_phrases text := by
    rw [countLoop_eq, countLoop_eq]
    unfold specWeightedHits
    ring
  have hn : countLoop AppEnhanced.negative_phrases (pyLower text) 2
      (countLoop AppEnhanced.negative_words (pyLower text) 1 0)
      = specWeightedHits AppEnhanced.negative_words AppEnhanced.negative_phrases text := by
    rw [countLoop_eq, countLoop_eq]
    unfold specWeightedHits
    ring
  unfold AppEnhanced.predict_sentiment
  rw [if_neg hne]
  simp only [hp, hn]
  rfl

/-- Concrete instance of claim C6. -/
theorem enhanced_sentiment_matches_spec_witness :
    AppEnhanced.predict_sentiment "good"
      = specLabelSelection
          (specWeightedHits AppEnhanced.positive_words AppEnhanced.positive_phrases "good")
          (specWeightedHits AppEnhanced.negative_words AppEnhanced.negative_phrases "good")
          (wordCount "good") :=
  enhanced_sentiment_matches_spec "good" (by decide)

/-- Claim C8, counterexample: on classifier exception `app_cuda.py` returns
the fixed constant `("neutral", 0.5)` whatever the text, which is not the
keyword-backed strategy — the latter labels "good" positive. -/
theorem sentiment_fallback_counterexample :
    analyze_sentiment_cuda true (fun _ => MLCall.raise "boom") "good" = ("neutral", q05)
      ∧ analyze_sentiment_cuda true (fun _ => MLCall.raise "boom") "this is harmful"
          = ("neutral", q05)
      ∧ keyword_sentiment_fallback "good" = ("positive", q07)
      ∧ analyze_sentiment_cuda true (fun _ => MLCall.raise "boom") "good"
          ≠ keyword_sentiment_fallback "good" := by
  decide

/-- Claim C8 as amended: on classifier exception `app_full_system.py` falls
back to the keyword-backed strategy, while `app_cuda.py` returns the fixed
constant `("neutral", 0.5)`; in both variants the sentiment stage never
fails the request. -/
theorem sentiment_model_exception_fallback (text msg : String) :
    analyze_sentiment true (fun _ => MLCall.raise msg) text
        = keyword_sentiment_fallback text
      ∧ analyze_sentiment_cuda true (fun _ => MLCall.raise msg) text = ("neutral", q05) := by
  constructor <;> rfl

/-- Claim C4: the toxicity gate fails open — when the classifier is
unavailable or raises, both variants return `(False, 0.0)` and the
submission is never blocked by a classifier failure. -/
theorem toxicity_fail_open (p : MLCall (List ℚ)) (q : MLCall ℚ) (msg : String) :
    detect_toxicity false p = (false, 0)
      ∧ detect_toxicity true (.raise msg) = (false, 0)
      ∧ detect_toxicity_cuda false q = (false, 0)
      ∧ detect_toxicity_cuda true (.raise msg) = (false, 0) := by
  refine ⟨?_, ?_, ?_, ?_⟩ <;> rfl

end Hackathon
